import Mathlib

/-!
Shallow embedding of `src/example-app/app.py`, a FastAPI observability
example application.  The app consists of:

* an HTTP middleware `observability_middleware` that, per request,
  generates a `trace_id` (uuid4), writes a start log row to ClickHouse,
  runs the downstream handler, and on success writes two metric rows, one
  trace row and a completion log row (adding the `X-Trace-ID` response
  header), while on failure it writes an error log row and re-raises;
* endpoint handlers `root` and `get_user` (the latter writes its own log
  row using the inbound `X-Trace-ID` request header, defaulting to
  `"unknown"`);
* a `/metrics` endpoint rendering the in-process Prometheus registry;
* a `/trace/{trace_id}` endpoint `get_trace_data` issuing three filtered
  queries against the ClickHouse store;
* `init_tables`, which issues three `CREATE TABLE IF NOT EXISTS` DDL
  statements.

Nondeterminism (wall-clock readings from `time.time()` / `datetime.now()`,
uuid4 draws, and possible failures of `client.insert`) is modelled by an
environment `Env` of oracle streams consumed via indices threaded through
the state `St`.  Python exceptions are modelled with `Except String`:
an uncaught exception from a `client.insert` call propagates exactly as in
Python (the only `try`/`except` in the source is the middleware's, whose
`except Exception` clause catches anything raised inside the `try` block).
-/

/-- A JSON scalar value as produced by `json.dumps` on the dict payloads in
the source (string, float, or int entries). -/
inductive JVal where
  | s (v : String)
  | n (v : ℚ)
  | i (v : Int)
deriving DecidableEq, Repr

/-- A row of the ClickHouse `logs` table (schema from `init_tables`). -/
structure LogRow where
  timestamp : ℚ
  trace_id : String
  level : String
  message : String
  service : String
  extra_fields : List (String × JVal)
deriving DecidableEq, Repr

/-- A row of the ClickHouse `metrics` table. -/
structure MetricRow where
  timestamp : ℚ
  trace_id : String
  metric_name : String
  value : ℚ
  labels : List (String × JVal)
deriving DecidableEq, Repr

/-- A row of the ClickHouse `traces` table. -/
structure TraceRow where
  timestamp : ℚ
  trace_id : String
  span_id : String
  parent_span_id : String
  operation_name : String
  duration_ms : ℚ
  service_name : String
  tags : List (String × JVal)
deriving DecidableEq, Repr

/-- The ClickHouse signal store: the three append-only tables. -/
structure Store where
  metrics : List MetricRow
  logs : List LogRow
  traces : List TraceRow
deriving DecidableEq, Repr

/-- The in-process Prometheus registry state.  The source declares
`REQUEST_COUNT = Counter('http_requests_total', ...)` and
`REQUEST_DURATION = Histogram('http_request_duration_seconds', ...)`;
their mutable state is the set of labelled counter children and the list
of histogram observations. -/
structure Registry where
  requestCountSamples : List (List (String × String) × Nat)
  requestDurationObs : List ℚ
deriving DecidableEq, Repr

/-- Registry at process start: both collectors declared, no child counters
created, no observations recorded. -/
def initialRegistry : Registry := ⟨[], []⟩

/-- Whole-process mutable state: the store, the registry, and the indices
into the oracle streams (next wall-clock reading, next uuid4 draw, next
insert attempt). -/
structure St where
  store : Store
  registry : Registry
  timeIdx : Nat
  uuidIdx : Nat
  insIdx : Nat
deriving DecidableEq, Repr

/-- Environment of oracles: `clock n` is the value returned by the n-th
wall-clock reading (`time.time()` / `datetime.now()`), `uuids n` the n-th
`uuid.uuid4()` draw, and `insertFail n` whether the n-th `client.insert`
attempt raises (ClickHouse write failure). -/
structure Env where
  clock : Nat → ℚ
  uuids : Nat → String
  insertFail : Nat → Bool

/-- An inbound HTTP request as seen by the middleware and handlers. -/
structure Request where
  method : String
  path : String
  headers : List (String × String)
deriving DecidableEq, Repr

/-- A response body: either a JSON object (dict return values) or raw text
(the `/metrics` exposition body). -/
inductive Body where
  | json (fields : List (String × JVal))
  | text (content : String)
deriving DecidableEq, Repr

/-- An HTTP response. -/
structure HttpResponse where
  status_code : Int
  headers : List (String × String)
  body : Body
deriving DecidableEq, Repr

deriving instance DecidableEq for Except

/-- A downstream handler (`call_next` target): takes the request and the
process state, returns either a response or a raised exception (paired
with the state as mutated so far). -/
def Handler : Type := Request → St → Except String HttpResponse × St

/-- Python `dict.get(key, default)` on a header dict. -/
def headerGet (hs : List (String × String)) (k dflt : String) : String :=
  match hs.lookup k with
  | some v => v
  | none => dflt

/-- Header assignment `headers[k] = v` on a header dict. -/
def setHeader (hs : List (String × String)) (k v : String) : List (String × String) :=
  if (hs.lookup k).isSome then hs.map (fun p => if p.1 = k then (k, v) else p)
  else hs ++ [(k, v)]

/-- Advance the wall-clock stream by one reading. -/
def St.tickT (s : St) : St := { s with timeIdx := s.timeIdx + 1 }

/-- Advance the uuid stream by one draw. -/
def St.tickU (s : St) : St := { s with uuidIdx := s.uuidIdx + 1 }

/-- A successful `client.insert('logs', [row])`: appends the row. -/
def pushLog (s : St) (r : LogRow) : St :=
  { s with store := { s.store with logs := s.store.logs ++ [r] }, insIdx := s.insIdx + 1 }

/-- A successful `client.insert('metrics', [row])`. -/
def pushMetric (s : St) (r : MetricRow) : St :=
  { s with store := { s.store with metrics := s.store.metrics ++ [r] }, insIdx := s.insIdx + 1 }

/-- A successful `client.insert('traces', [row])`. -/
def pushTrace (s : St) (r : TraceRow) : St :=
  { s with store := { s.store with traces := s.store.traces ++ [r] }, insIdx := s.insIdx + 1 }

/-- The exception text a failed ClickHouse insert raises in the model. -/
def storeWriteError : String := "store write failed"

/-- The call `client.insert('logs', [row])`, which may raise: consults the failure
oracle at the current attempt index; on failure nothing is written and the
exception message is returned. -/
def tryInsertLog (env : Env) (s : St) (r : LogRow) : Option String × St :=
  if env.insertFail s.insIdx then (some storeWriteError, { s with insIdx := s.insIdx + 1 })
  else (none, pushLog s r)

/-- The call `client.insert('metrics', [row])`, which may raise. -/
def tryInsertMetric (env : Env) (s : St) (r : MetricRow) : Option String × St :=
  if env.insertFail s.insIdx then (some storeWriteError, { s with insIdx := s.insIdx + 1 })
  else (none, pushMetric s r)

/-- The call `client.insert('traces', [row])`, which may raise. -/
def tryInsertTrace (env : Env) (s : St) (r : TraceRow) : Option String × St :=
  if env.insertFail s.insIdx then (some storeWriteError, { s with insIdx := s.insIdx + 1 })
  else (none, pushTrace s r)

/-- Sequence a fallible insert with a continuation: a raised insert
exception aborts the enclosing block with that exception (Python
propagation). -/
def attempt (r : Option String × St) (k : St → Except String HttpResponse × St) :
    Except String HttpResponse × St :=
  match r.1 with
  | some e => (.error e, r.2)
  | none => k r.2

/-- The start log row written at middleware entry
(`Starting request: {method} {path}`). -/
def startLogRow (t : ℚ) (trace_id : String) (req : Request) : LogRow :=
  { timestamp := t, trace_id := trace_id, level := "INFO",
    message := "Starting request: " ++ req.method ++ " " ++ req.path,
    service := "example-app",
    extra_fields := [("method", .s req.method), ("path", .s req.path)] }

/-- The labels dict built on the success path
(`{"method": ..., "endpoint": ..., "status": response.status_code}`). -/
def requestLabels (req : Request) (status : Int) : List (String × JVal) :=
  [("method", .s req.method), ("endpoint", .s req.path), ("status", .i status)]

/-- The `http_requests_total` metric row (value 1). -/
def requestCountRow (t : ℚ) (trace_id : String) (labels : List (String × JVal)) : MetricRow :=
  { timestamp := t, trace_id := trace_id, metric_name := "http_requests_total",
    value := 1, labels := labels }

/-- The `http_request_duration_seconds` metric row (value = duration). -/
def durationMetricRow (t : ℚ) (trace_id : String) (duration : ℚ)
    (labels : List (String × JVal)) : MetricRow :=
  { timestamp := t, trace_id := trace_id, metric_name := "http_request_duration_seconds",
    value := duration, labels := labels }

/-- The root-span trace row: empty `parent_span_id`,
`duration_ms = duration * 1000`. -/
def spanRow (t : ℚ) (trace_id span_id : String) (req : Request) (duration : ℚ)
    (labels : List (String × JVal)) : TraceRow :=
  { timestamp := t, trace_id := trace_id, span_id := span_id, parent_span_id := "",
    operation_name := req.method ++ " " ++ req.path, duration_ms := duration * 1000,
    service_name := "example-app", tags := labels }

/-- The completion log row (`Request completed: {status_code}`). -/
def completionLogRow (t : ℚ) (trace_id : String) (req : Request) (status : Int)
    (duration : ℚ) : LogRow :=
  { timestamp := t, trace_id := trace_id, level := "INFO",
    message := "Request completed: " ++ toString status,
    service := "example-app",
    extra_fields := [("method", .s req.method), ("path", .s req.path),
                     ("status_code", .i status), ("duration", .n duration)] }

/-- The error log row (`Request failed: {str(e)}`); the duration goes into
the `extra_fields` payload, not the message. -/
def errorLogRow (t : ℚ) (trace_id : String) (e : String) (duration : ℚ) : LogRow :=
  { timestamp := t, trace_id := trace_id, level := "ERROR",
    message := "Request failed: " ++ e,
    service := "example-app",
    extra_fields := [("error", .s e), ("duration", .n duration)] }

/-- The success branch of the middleware's `try` block, entered after
`call_next` returned `response`: reads `time.time()` for the duration,
performs the four inserts (each preceded by a `datetime.now()` reading,
the trace insert also drawing a fresh span uuid), then sets the
`X-Trace-ID` response header. Any insert exception aborts the block. -/
def successPath (env : Env) (trace_id : String) (start_time : ℚ) (req : Request)
    (response : HttpResponse) (s : St) : Except String HttpResponse × St :=
  let duration := env.clock s.timeIdx - start_time
  let s := s.tickT
  let labels := requestLabels req response.status_code
  let t1 := env.clock s.timeIdx
  let s := s.tickT
  attempt (tryInsertMetric env s (requestCountRow t1 trace_id labels)) fun s =>
  let t2 := env.clock s.timeIdx
  let s := s.tickT
  attempt (tryInsertMetric env s (durationMetricRow t2 trace_id duration labels)) fun s =>
  let t3 := env.clock s.timeIdx
  let s := s.tickT
  let span_id := env.uuids s.uuidIdx
  let s := s.tickU
  attempt (tryInsertTrace env s (spanRow t3 trace_id span_id req duration labels)) fun s =>
  let t4 := env.clock s.timeIdx
  let s := s.tickT
  attempt (tryInsertLog env s (completionLogRow t4 trace_id req response.status_code duration)) fun s =>
  (.ok { response with headers := setHeader response.headers "X-Trace-ID" trace_id }, s)

/-- The middleware's `except Exception` clause: recomputes the duration
from a fresh `time.time()` reading, writes the error log row (whose own
failure would propagate instead), and re-raises `e`. -/
def failurePath (env : Env) (trace_id : String) (start_time : ℚ) (e : String)
    (s : St) : Except String HttpResponse × St :=
  let duration := env.clock s.timeIdx - start_time
  let s := s.tickT
  let tL := env.clock s.timeIdx
  let s := s.tickT
  match tryInsertLog env s (errorLogRow tL trace_id e duration) with
  | (some e2, s) => (.error e2, s)
  | (none, s) => (.error e, s)

/-- The process state after the middleware's start-log insert succeeded:
one uuid drawn (the trace id), two clock readings consumed (`time.time()`
start time and the start row's `datetime.now()`), the start row appended. -/
def afterStartLog (env : Env) (req : Request) (s : St) : St :=
  pushLog s.tickU.tickT.tickT
    (startLogRow (env.clock (s.timeIdx + 1)) (env.uuids s.uuidIdx) req)

/-- The middleware `observability_middleware(request, call_next)`: draws the trace id,
reads the start time, writes the start log row (outside the `try`: its
failure propagates directly), runs the downstream handler inside
`try`/`except`, and dispatches to the success or failure branch. -/
def observability_middleware (env : Env) (handler : Handler) (req : Request)
    (s : St) : Except String HttpResponse × St :=
  let trace_id := env.uuids s.uuidIdx
  let start_time := env.clock s.timeIdx
  match tryInsertLog env s.tickU.tickT.tickT
      (startLogRow (env.clock (s.timeIdx + 1)) trace_id req) with
  | (some e, s) => (.error e, s)
  | (none, s) =>
    match handler req s with
    | (.ok response, s) =>
      match successPath env trace_id start_time req response s with
      | (.ok resp, s) => (.ok resp, s)
      | (.error e, s) => failurePath env trace_id start_time e s
    | (.error e, s) => failurePath env trace_id start_time e s

/-- Endpoint `GET /`: returns the greeting dict echoing the inbound
`X-Trace-ID` request header (default `"unknown"`). -/
def root : Handler := fun req s =>
  (.ok { status_code := 200, headers := [],
         body := .json [("message", .s "Hello, Observability!"),
                        ("trace_id", .s (headerGet req.headers "X-Trace-ID" "unknown"))] }, s)

/-- The log row `get_user` writes (`Fetching user {user_id}`), under the
trace id it read from the inbound request headers. -/
def fetchingUserRow (t : ℚ) (hdrTraceId : String) (user_id : Int) : LogRow :=
  { timestamp := t, trace_id := hdrTraceId, level := "INFO",
    message := "Fetching user " ++ toString user_id,
    service := "example-app",
    extra_fields := [("user_id", .i user_id)] }

/-- Endpoint `GET /users/{user_id}`: after a simulated delay (no clock
reading), writes its own log row keyed by the *inbound* `X-Trace-ID`
request header (`"unknown"` when absent), then returns the user dict.
A raised insert exception propagates to the middleware's `except`. -/
def get_user (user_id : Int) (env : Env) : Handler := fun req s =>
  let hdrTraceId := headerGet req.headers "X-Trace-ID" "unknown"
  let t := env.clock s.timeIdx
  let s := s.tickT
  match tryInsertLog env s (fetchingUserRow t hdrTraceId user_id) with
  | (some e, s) => (.error e, s)
  | (none, s) =>
    (.ok { status_code := 200, headers := [],
           body := .json [("user_id", .i user_id),
                          ("name", .s ("User " ++ toString user_id)),
                          ("trace_id", .s hdrTraceId)] }, s)

/-- The constant `prometheus_client.CONTENT_TYPE_LATEST`. -/
def CONTENT_TYPE_LATEST : String := "text/plain; version=0.0.4; charset=utf-8"

/-- One exposition line `name\x7blabels\x7d value`. -/
def renderSample (name : String) (labels : List (String × String)) (v : ℚ) : String :=
  name ++ "\x7b" ++ String.intercalate "," (labels.map (fun p => p.1 ++ "=" ++ p.2)) ++
    "\x7d " ++ toString v ++ "\n"

/-- The function `prometheus_client.generate_latest()`: renders the registry's two
declared collectors (HELP/TYPE headers and the live samples) in the text
exposition format. -/
def generate_latest (r : Registry) : String :=
  "# HELP http_requests_total Total HTTP Requests\n" ++
  "# TYPE http_requests_total counter\n" ++
  String.join (r.requestCountSamples.map
    (fun p => renderSample "http_requests_total" p.1 (p.2 : ℚ))) ++
  "# HELP http_request_duration_seconds HTTP Request Duration\n" ++
  "# TYPE http_request_duration_seconds histogram\n" ++
  "http_request_duration_seconds_count " ++ toString r.requestDurationObs.length ++ "\n" ++
  "http_request_duration_seconds_sum " ++ toString (r.requestDurationObs.foldl (· + ·) 0) ++ "\n"

/-- Endpoint `GET /metrics`: `Response(generate_latest(),
media_type=CONTENT_TYPE_LATEST)`. -/
def metrics (s : St) : HttpResponse :=
  { status_code := 200, headers := [("content-type", CONTENT_TYPE_LATEST)],
    body := .text (generate_latest s.registry) }

/-- The response dict of `GET /trace/{trace_id}`. -/
structure TraceDataResponse where
  trace_id : String
  metrics : List MetricRow
  logs : List LogRow
  traces : List TraceRow
deriving DecidableEq, Repr

/-- Query `SELECT * FROM metrics WHERE trace_id = %s`: an exact-match filter,
returning rows in whatever order the store holds them (no ORDER BY in the
source query). -/
def queryMetrics (store : Store) (id : String) : List MetricRow :=
  store.metrics.filter (fun r => r.trace_id == id)

/-- Query `SELECT * FROM logs WHERE trace_id = %s`. -/
def queryLogs (store : Store) (id : String) : List LogRow :=
  store.logs.filter (fun r => r.trace_id == id)

/-- Query `SELECT * FROM traces WHERE trace_id = %s`. -/
def queryTraces (store : Store) (id : String) : List TraceRow :=
  store.traces.filter (fun r => r.trace_id == id)

/-- Endpoint `GET /trace/{trace_id}` (`get_trace_data`): three filtered
reads, one per table, merged into one response dict. -/
def get_trace_data (store : Store) (trace_id : String) : TraceDataResponse :=
  { trace_id := trace_id,
    metrics := queryMetrics store trace_id,
    logs := queryLogs store trace_id,
    traces := queryTraces store trace_id }

/-- Starlette path matching for the route pattern `/trace/{trace_id}`:
a path parameter matches one non-empty segment without a slash.  Returns
the captured `trace_id`, or `none` when the path does not match the route
(in which case the framework answers 404 and the handler never runs). -/
def matchTracePath (path : String) : Option String :=
  match path.toList with
  | '/' :: 't' :: 'r' :: 'a' :: 'c' :: 'e' :: '/' :: rest =>
      if rest = [] ∨ '/' ∈ rest then none else some (String.mk rest)
  | _ => none

/-- Result of dispatching a request path against the `/trace/{trace_id}`
route: the response status, how many store reads were issued while
serving it, and the returned data (absent on 404). -/
structure TraceRouteResult where
  status : Int
  storeReads : Nat
  data : Option TraceDataResponse
deriving DecidableEq, Repr

/-- Route dispatch for `GET /trace/{trace_id}`: on a match, the handler
runs (three `client.query` reads, status 200); otherwise the framework
returns 404 without touching the store. -/
def handleTraceRoute (store : Store) (path : String) : TraceRouteResult :=
  match matchTracePath path with
  | none => { status := 404, storeReads := 0, data := none }
  | some id => { status := 200, storeReads := 3, data := some (get_trace_data store id) }

/-- A column of a ClickHouse table schema. -/
structure Column where
  name : String
  type : String
deriving DecidableEq, Repr

/-- A ClickHouse table schema: columns plus the MergeTree ORDER BY key. -/
structure TableSchema where
  columns : List Column
  orderBy : List String
deriving DecidableEq, Repr

/-- The schema catalog of the ClickHouse instance: existing tables by
name. -/
def ClickhouseDb : Type := List (String × TableSchema)

/-- DDL `CREATE TABLE IF NOT EXISTS name (...)`: adds the table when no table
of that name exists, otherwise leaves the catalog untouched (and raises no
error). -/
def createTableIfNotExists (db : ClickhouseDb) (name : String) (sch : TableSchema) :
    ClickhouseDb :=
  if (db.lookup name).isSome then db else (name, sch) :: db

/-- Schema of the `metrics` table from the source DDL. -/
def metricsSchema : TableSchema :=
  { columns := [⟨"timestamp", "DateTime64(3)"⟩, ⟨"trace_id", "String"⟩,
                ⟨"metric_name", "String"⟩, ⟨"value", "Float64"⟩, ⟨"labels", "String"⟩],
    orderBy := ["timestamp", "trace_id", "metric_name"] }

/-- Schema of the `logs` table from the source DDL. -/
def logsSchema : TableSchema :=
  { columns := [⟨"timestamp", "DateTime64(3)"⟩, ⟨"trace_id", "String"⟩,
                ⟨"level", "String"⟩, ⟨"message", "String"⟩, ⟨"service", "String"⟩,
                ⟨"extra_fields", "String"⟩],
    orderBy := ["timestamp", "trace_id", "level"] }

/-- Schema of the `traces` table from the source DDL. -/
def tracesSchema : TableSchema :=
  { columns := [⟨"timestamp", "DateTime64(3)"⟩, ⟨"trace_id", "String"⟩,
                ⟨"span_id", "String"⟩, ⟨"parent_span_id", "String"⟩,
                ⟨"operation_name", "String"⟩, ⟨"duration_ms", "Float64"⟩,
                ⟨"service_name", "String"⟩, ⟨"tags", "String"⟩],
    orderBy := ["timestamp", "trace_id", "span_id"] }

/-- Bootstrap `init_tables()`: three `CREATE TABLE IF NOT EXISTS` commands, one per
signal table. -/
def init_tables (db : ClickhouseDb) : ClickhouseDb :=
  createTableIfNotExists
    (createTableIfNotExists
      (createTableIfNotExists db "metrics" metricsSchema)
      "logs" logsSchema)
    "traces" tracesSchema

/-- One write issued against the signal store (a `client.insert` into one
of the three tables). -/
inductive WriteOp where
  | metric (r : MetricRow)
  | log (r : LogRow)
  | trace (r : TraceRow)
deriving DecidableEq, Repr

/-- Apply one store write (row append, as `client.insert` does). -/
def applyWrite (s : Store) : WriteOp → Store
  | .metric r => { s with metrics := s.metrics ++ [r] }
  | .log r => { s with logs := s.logs ++ [r] }
  | .trace r => { s with traces := s.traces ++ [r] }

/-- Apply a sequence of store writes in order. -/
def applyWrites (s : Store) (ws : List WriteOp) : Store :=
  ws.foldl applyWrite s

/-- The metric rows among a write sequence that carry the given
correlation id, in write order. -/
def metricWritesFor (id : String) (ws : List WriteOp) : List MetricRow :=
  ws.filterMap fun w =>
    match w with
    | .metric r => if r.trace_id == id then some r else none
    | _ => none

/-- The log rows among a write sequence that carry the given correlation
id. -/
def logWritesFor (id : String) (ws : List WriteOp) : List LogRow :=
  ws.filterMap fun w =>
    match w with
    | .log r => if r.trace_id == id then some r else none
    | _ => none

/-- The trace rows among a write sequence that carry the given correlation
id. -/
def traceWritesFor (id : String) (ws : List WriteOp) : List TraceRow :=
  ws.filterMap fun w =>
    match w with
    | .trace r => if r.trace_id == id then some r else none
    | _ => none

/-- A store holds no record at all under the given correlation id. -/
def Store.noRecordsFor (s : Store) (id : String) : Prop :=
  (∀ r ∈ s.metrics, r.trace_id ≠ id) ∧ (∀ r ∈ s.logs, r.trace_id ≠ id) ∧
    (∀ r ∈ s.traces, r.trace_id ≠ id)

/-- Substring test on character lists. -/
def listHasSub (hay needle : List Char) : Bool :=
  match hay with
  | [] => needle.isEmpty
  | _ :: t => needle.isPrefixOf hay || listHasSub t needle

/-- Whether `needle` occurs as a contiguous substring of `hay`. -/
def strContains (hay needle : String) : Bool :=
  listHasSub hay.toList needle.toList

/-- A metric sequence is chronologically ordered (timestamp ascending). -/
def metricsSortedByTs (l : List MetricRow) : Prop :=
  l.Pairwise (fun a b => a.timestamp ≤ b.timestamp)

/-- A log sequence is chronologically ordered. -/
def logsSortedByTs (l : List LogRow) : Prop :=
  l.Pairwise (fun a b => a.timestamp ≤ b.timestamp)

/-- A trace sequence is chronologically ordered. -/
def tracesSortedByTs (l : List TraceRow) : Prop :=
  l.Pairwise (fun a b => a.timestamp ≤ b.timestamp)

instance (l : List MetricRow) : Decidable (metricsSortedByTs l) := by
  unfold metricsSortedByTs; infer_instance

instance (l : List LogRow) : Decidable (logsSortedByTs l) := by
  unfold logsSortedByTs; infer_instance

instance (l : List TraceRow) : Decidable (tracesSortedByTs l) := by
  unfold tracesSortedByTs; infer_instance

/-- Run a batch of requests through the middleware in sequence, each
dispatched to its handler; the response is discarded, the state threaded
(re-raised exceptions are handled by the framework above the middleware
and do not stop the process). -/
def processAll (env : Env) (batch : List (Handler × Request)) (s : St) : St :=
  batch.foldl (fun s hr => (observability_middleware env hr.1 hr.2 s).2) s

/-- A handler never mutates the in-process Prometheus registry. -/
def preservesRegistry (h : Handler) : Prop :=
  ∀ req s, ((h req s).2).registry = s.registry

theorem lookup_createTableIfNotExists_self (db : ClickhouseDb) (n : String)
    (sch : TableSchema) : ((createTableIfNotExists db n sch).lookup n).isSome := by
  unfold createTableIfNotExists
  split
  · assumption
  · simp [List.lookup]

theorem lookup_createTableIfNotExists_mono (db : ClickhouseDb) (n m : String)
    (sch : TableSchema) (h : (db.lookup m).isSome) :
    ((createTableIfNotExists db n sch).lookup m).isSome := by
  unfold createTableIfNotExists
  split
  · exact h
  · simp only [List.lookup]
    split
    · simp
    · exact h

theorem createTableIfNotExists_of_present (db : ClickhouseDb) (n : String)
    (sch : TableSchema) (h : (db.lookup n).isSome) :
    createTableIfNotExists db n sch = db := by
  unfold createTableIfNotExists
  simp [h]

/-- C9: `init_tables()` is idempotent: it creates the three record tables
when absent, a repeated call leaves the schema catalog exactly unchanged,
and no call path raises an error (the function is total and every
statement is `CREATE TABLE IF NOT EXISTS`). -/
theorem init_tables_idempotent : ∀ db : ClickhouseDb,
    init_tables (init_tables db) = init_tables db ∧
    ((init_tables db).lookup "metrics").isSome ∧
    ((init_tables db).lookup "logs").isSome ∧
    ((init_tables db).lookup "traces").isSome := by
  intro db
  have hm : ((init_tables db).lookup "metrics").isSome := by
    unfold init_tables
    exact lookup_createTableIfNotExists_mono _ _ _ _
      (lookup_createTableIfNotExists_mono _ _ _ _
        (lookup_createTableIfNotExists_self _ _ _))
  have hl : ((init_tables db).lookup "logs").isSome := by
    unfold init_tables
    exact lookup_createTableIfNotExists_mono _ _ _ _
      (lookup_createTableIfNotExists_self _ _ _)
  have ht : ((init_tables db).lookup "traces").isSome := by
    unfold init_tables
    exact lookup_createTableIfNotExists_self _ _ _
  refine ⟨?_, hm, hl, ht⟩
  conv_lhs => rw [init_tables, createTableIfNotExists_of_present _ _ _ hm]
  conv_lhs => rw [createTableIfNotExists_of_present _ _ _ hl]
  exact createTableIfNotExists_of_present _ _ _ ht

/-- A store whose `metrics` table holds two rows for the same correlation
id out of chronological order (nothing in the source's plain
`SELECT ... WHERE` queries or in `get_trace_data` orders the rows). -/
def outOfOrderStore : Store :=
  { metrics := [{ timestamp := 5, trace_id := "a", metric_name := "m", value := 1, labels := [] },
                { timestamp := 3, trace_id := "a", metric_name := "m", value := 1, labels := [] }],
    logs := [], traces := [] }

/-- C6 counterexample: the claim that every sequence returned by
`get_trace_data` is ordered by timestamp ascending fails: the service
performs no sorting, so a store that returns rows out of chronological
order yields an out-of-order `metrics` sequence. -/
theorem get_trace_data_not_sorted :
    ¬ metricsSortedByTs (get_trace_data outOfOrderStore "a").metrics := by
  decide

/-- C6 amended: `get_trace_data` preserves the store's row order (the
queries are plain filters); each returned sequence is ordered by
timestamp ascending exactly when the store already returns its rows in
chronological order — the service itself performs no sorting and relies on
the store's order. -/
theorem get_trace_data_sorted_of_store_sorted (store : Store) (id : String)
    (hm : metricsSortedByTs store.metrics) (hl : logsSortedByTs store.logs)
    (ht : tracesSortedByTs store.traces) :
    metricsSortedByTs (get_trace_data store id).metrics ∧
    logsSortedByTs (get_trace_data store id).logs ∧
    tracesSortedByTs (get_trace_data store id).traces :=
  ⟨hm.filter _, hl.filter _, ht.filter _⟩

/-- C6 amended witness: the amended theorem applied at the out-of-order
store rearranged into chronological order. -/
theorem get_trace_data_sorted_witness :
    metricsSortedByTs (get_trace_data ⟨outOfOrderStore.metrics.reverse, [], []⟩ "a").metrics ∧
    logsSortedByTs (get_trace_data ⟨outOfOrderStore.metrics.reverse, [], []⟩ "a").logs ∧
    tracesSortedByTs (get_trace_data ⟨outOfOrderStore.metrics.reverse, [], []⟩ "a").traces :=
  get_trace_data_sorted_of_store_sorted _ _ (by decide) (by decide) (by decide)

/-- C7: a request to the correlated-query endpoint that does not supply a
correlation id (the path does not match `/trace/{trace_id}`, e.g. the
missing-id paths `/trace` and `/trace/`) is answered with the client-error
status 404 and no read is ever issued against the store; correlation ids
are opaque strings, so every supplied path segment is a valid id and the
only malformed queries are the non-matching paths. -/
theorem malformed_trace_query_is_client_error (store : Store) (path : String)
    (h : matchTracePath path = none) :
    ((handleTraceRoute store path).status = 404 ∧
      400 ≤ (handleTraceRoute store path).status ∧
      (handleTraceRoute store path).status < 500 ∧
      (handleTraceRoute store path).storeReads = 0) ∧
    matchTracePath "/trace" = none ∧ matchTracePath "/trace/" = none := by
  refine ⟨?_, by decide, by decide⟩
  simp [handleTraceRoute, h]

/-- C7 witness: the theorem applied to the missing-id path `/trace/` on an
empty store. -/
theorem malformed_trace_query_witness :
    (((handleTraceRoute ⟨[], [], []⟩ "/trace/").status = 404 ∧
      400 ≤ (handleTraceRoute ⟨[], [], []⟩ "/trace/").status ∧
      (handleTraceRoute ⟨[], [], []⟩ "/trace/").status < 500 ∧
      (handleTraceRoute ⟨[], [], []⟩ "/trace/").storeReads = 0) ∧
    matchTracePath "/trace" = none ∧ matchTracePath "/trace/" = none) :=
  malformed_trace_query_is_client_error ⟨[], [], []⟩ "/trace/" (by decide)

theorem queryMetrics_applyWrites (id : String) : ∀ (ws : List WriteOp) (s : Store),
    queryMetrics (applyWrites s ws) id = queryMetrics s id ++ metricWritesFor id ws := by
  intro ws
  induction ws with
  | nil => intro s; simp [applyWrites, metricWritesFor]
  | cons w t ih =>
    intro s
    rw [show applyWrites s (w :: t) = applyWrites (applyWrite s w) t from rfl, ih]
    cases w with
    | metric r =>
      by_cases hr : r.trace_id = id
      · simp [applyWrite, queryMetrics, metricWritesFor, List.filter_append, List.filterMap_cons, hr]
      · simp [applyWrite, queryMetrics, metricWritesFor, List.filter_append, List.filterMap_cons, hr]
    | log r => simp [applyWrite, queryMetrics, metricWritesFor, List.filterMap_cons]
    | trace r => simp [applyWrite, queryMetrics, metricWritesFor, List.filterMap_cons]

theorem queryLogs_applyWrites (id : String) : ∀ (ws : List WriteOp) (s : Store),
    queryLogs (applyWrites s ws) id = queryLogs s id ++ logWritesFor id ws := by
  intro ws
  induction ws with
  | nil => intro s; simp [applyWrites, logWritesFor]
  | cons w t ih =>
    intro s
    rw [show applyWrites s (w :: t) = applyWrites (applyWrite s w) t from rfl, ih]
    cases w with
    | log r =>
      by_cases hr : r.trace_id = id
      · simp [applyWrite, queryLogs, logWritesFor, List.filter_append, List.filterMap_cons, hr]
      · simp [applyWrite, queryLogs, logWritesFor, List.filter_append, List.filterMap_cons, hr]
    | metric r => simp [applyWrite, queryLogs, logWritesFor, List.filterMap_cons]
    | trace r => simp [applyWrite, queryLogs, logWritesFor, List.filterMap_cons]

theorem queryTraces_applyWrites (id : String) : ∀ (ws : List WriteOp) (s : Store),
    queryTraces (applyWrites s ws) id = queryTraces s id ++ traceWritesFor id ws := by
  intro ws
  induction ws with
  | nil => intro s; simp [applyWrites, traceWritesFor]
  | cons w t ih =>
    intro s
    rw [show applyWrites s (w :: t) = applyWrites (applyWrite s w) t from rfl, ih]
    cases w with
    | trace r =>
      by_cases hr : r.trace_id = id
      · simp [applyWrite, queryTraces, traceWritesFor, List.filter_append, List.filterMap_cons, hr]
      · simp [applyWrite, queryTraces, traceWritesFor, List.filter_append, List.filterMap_cons, hr]
    | metric r => simp [applyWrite, queryTraces, traceWritesFor, List.filterMap_cons]
    | log r => simp [applyWrite, queryTraces, traceWritesFor, List.filterMap_cons]

/-- C5: round-trip between the write path and the correlated query
endpoint.  Starting from a store with no record under the correlation id,
after any sequence of writes, `GET /trace/{id}` returns status 200 and
exactly the metric, log and trace rows written under that id, value for
value and in write order (so N metric writes, M log writes, K trace
writes yield exactly N, M, K records); in particular for an id with no
records (the second conjunct, querying the untouched store) it returns
three empty sequences with status 200, not an error. -/
theorem get_by_correlation_round_trip (s0 : Store) (ws : List WriteOp) (id p : String)
    (h0 : s0.noRecordsFor id) (hp : matchTracePath p = some id) :
    handleTraceRoute (applyWrites s0 ws) p =
      { status := 200, storeReads := 3,
        data := some { trace_id := id, metrics := metricWritesFor id ws,
                       logs := logWritesFor id ws, traces := traceWritesFor id ws } } ∧
    handleTraceRoute s0 p =
      { status := 200, storeReads := 3,
        data := some { trace_id := id, metrics := [], logs := [], traces := [] } } := by
  obtain ⟨h0m, h0l, h0t⟩ := h0
  have hm0 : queryMetrics s0 id = [] := by
    simp only [queryMetrics, List.filter_eq_nil_iff]
    intro r hr
    simpa using h0m r hr
  have hl0 : queryLogs s0 id = [] := by
    simp only [queryLogs, List.filter_eq_nil_iff]
    intro r hr
    simpa using h0l r hr
  have ht0 : queryTraces s0 id = [] := by
    simp only [queryTraces, List.filter_eq_nil_iff]
    intro r hr
    simpa using h0t r hr
  constructor
  · simp [handleTraceRoute, hp, get_trace_data,
      queryMetrics_applyWrites, queryLogs_applyWrites, queryTraces_applyWrites,
      hm0, hl0, ht0]
  · simp [handleTraceRoute, hp, get_trace_data, hm0, hl0, ht0]

/-- C5 witness: the round-trip theorem applied to an empty store, a write
sequence carrying two metric rows, one log row and one trace row under id
`x` (plus one metric row under another id), and the path `/trace/x`. -/
theorem get_by_correlation_round_trip_witness :
    handleTraceRoute
        (applyWrites ⟨[], [], []⟩
          [.metric { timestamp := 1, trace_id := "x", metric_name := "m1", value := 1, labels := [] },
           .log { timestamp := 2, trace_id := "x", level := "INFO", message := "hi",
                  service := "example-app", extra_fields := [] },
           .metric { timestamp := 3, trace_id := "y", metric_name := "m2", value := 2, labels := [] },
           .metric { timestamp := 4, trace_id := "x", metric_name := "m3", value := 3, labels := [] },
           .trace { timestamp := 5, trace_id := "x", span_id := "s1", parent_span_id := "",
                    operation_name := "GET /", duration_ms := 7, service_name := "example-app",
                    tags := [] }])
        "/trace/x" =
      { status := 200, storeReads := 3,
        data := some
          { trace_id := "x",
            metrics := metricWritesFor "x"
              [.metric { timestamp := 1, trace_id := "x", metric_name := "m1", value := 1, labels := [] },
               .log { timestamp := 2, trace_id := "x", level := "INFO", message := "hi",
                      service := "example-app", extra_fields := [] },
               .metric { timestamp := 3, trace_id := "y", metric_name := "m2", value := 2, labels := [] },
               .metric { timestamp := 4, trace_id := "x", metric_name := "m3", value := 3, labels := [] },
               .trace { timestamp := 5, trace_id := "x", span_id := "s1", parent_span_id := "",
                        operation_name := "GET /", duration_ms := 7, service_name := "example-app",
                        tags := [] }],
            logs := logWritesFor "x"
              [.metric { timestamp := 1, trace_id := "x", metric_name := "m1", value := 1, labels := [] },
               .log { timestamp := 2, trace_id := "x", level := "INFO", message := "hi",
                      service := "example-app", extra_fields := [] },
               .metric { timestamp := 3, trace_id := "y", metric_name := "m2", value := 2, labels := [] },
               .metric { timestamp := 4, trace_id := "x", metric_name := "m3", value := 3, labels := [] },
               .trace { timestamp := 5, trace_id := "x", span_id := "s1", parent_span_id := "",
                        operation_name := "GET /", duration_ms := 7, service_name := "example-app",
                        tags := [] }],
            traces := traceWritesFor "x"
              [.metric { timestamp := 1, trace_id := "x", metric_name := "m1", value := 1, labels := [] },
               .log { timestamp := 2, trace_id := "x", level := "INFO", message := "hi",
                      service := "example-app", extra_fields := [] },
               .metric { timestamp := 3, trace_id := "y", metric_name := "m2", value := 2, labels := [] },
               .metric { timestamp := 4, trace_id := "x", metric_name := "m3", value := 3, labels := [] },
               .trace { timestamp := 5, trace_id := "x", span_id := "s1", parent_span_id := "",
                        operation_name := "GET /", duration_ms := 7, service_name := "example-app",
                        tags := [] }] } } ∧
    handleTraceRoute (⟨[], [], []⟩ : Store) "/trace/x" =
      { status := 200, storeReads := 3,
        data := some { trace_id := "x", metrics := [], logs := [], traces := [] } } :=
  get_by_correlation_round_trip ⟨[], [], []⟩ _ "x" "/trace/x"
    (by refine ⟨?_, ?_, ?_⟩ <;> intro r hr <;> simp at hr) (by decide)

theorem registry_tryInsertLog (env : Env) (s : St) (r : LogRow) :
    ((tryInsertLog env s r).2).registry = s.registry := by
  unfold tryInsertLog pushLog
  split <;> rfl

theorem registry_tryInsertMetric (env : Env) (s : St) (r : MetricRow) :
    ((tryInsertMetric env s r).2).registry = s.registry := by
  unfold tryInsertMetric pushMetric
  split <;> rfl

theorem registry_tryInsertTrace (env : Env) (s : St) (r : TraceRow) :
    ((tryInsertTrace env s r).2).registry = s.registry := by
  unfold tryInsertTrace pushTrace
  split <;> rfl

theorem registry_attempt (r : Option String × St) (k : St → Except String HttpResponse × St)
    (hk : ∀ s, ((k s).2).registry = s.registry) :
    ((attempt r k).2).registry = (r.2).registry := by
  obtain ⟨o, s⟩ := r
  cases o <;> simp [attempt, hk]

theorem registry_successPath (env : Env) (tid : String) (t0 : ℚ) (req : Request)
    (resp : HttpResponse) (s : St) :
    ((successPath env tid t0 req resp s).2).registry = s.registry := by
  simp only [successPath, attempt, tryInsertMetric, tryInsertTrace, tryInsertLog]
  split_ifs <;> rfl

theorem registry_failurePath (env : Env) (tid : String) (t0 : ℚ) (e : String) (s : St) :
    ((failurePath env tid t0 e s).2).registry = s.registry := by
  simp only [failurePath, tryInsertLog]
  split_ifs <;> rfl

theorem registry_middleware (env : Env) (handler : Handler) (req : Request) (s : St)
    (hh : preservesRegistry handler) :
    ((observability_middleware env handler req s).2).registry = s.registry := by
  simp only [observability_middleware]
  split
  · rename_i e s1 heq
    have h := registry_tryInsertLog env s.tickU.tickT.tickT
      (startLogRow (env.clock (s.timeIdx + 1)) (env.uuids s.uuidIdx) req)
    rw [heq] at h
    exact h
  · rename_i s1 heq
    have hs1 : s1.registry = s.registry := by
      have h := registry_tryInsertLog env s.tickU.tickT.tickT
        (startLogRow (env.clock (s.timeIdx + 1)) (env.uuids s.uuidIdx) req)
      rw [heq] at h
      exact h
    split
    · rename_i resp s2 heq2
      have hs2 : s2.registry = s.registry := by
        have h := hh req s1
        rw [heq2] at h
        rw [h]
        exact hs1
      split
      · rename_i resp2 s3 heq3
        have h := registry_successPath env (env.uuids s.uuidIdx) (env.clock s.timeIdx) req resp s2
        rw [heq3] at h
        rw [h]
        exact hs2
      · rename_i e s3 heq3
        have h := registry_successPath env (env.uuids s.uuidIdx) (env.clock s.timeIdx) req resp s2
        rw [heq3] at h
        rw [registry_failurePath, h]
        exact hs2
    · rename_i e s2 heq2
      have hs2 : s2.registry = s.registry := by
        have h := hh req s1
        rw [heq2] at h
        rw [h]
        exact hs1
      rw [registry_failurePath]
      exact hs2

theorem root_preservesRegistry : preservesRegistry root := by
  intro req s
  rfl

theorem get_user_preservesRegistry (uid : Int) (env : Env) :
    preservesRegistry (get_user uid env) := by
  intro req s
  simp only [get_user]
  split
  · rename_i e s1 heq
    have h := registry_tryInsertLog env s.tickT
      (fetchingUserRow (env.clock s.timeIdx) (headerGet req.headers "X-Trace-ID" "unknown") uid)
    rw [heq] at h
    exact h
  · rename_i s1 heq
    have h := registry_tryInsertLog env s.tickT
      (fetchingUserRow (env.clock s.timeIdx) (headerGet req.headers "X-Trace-ID" "unknown") uid)
    rw [heq] at h
    exact h

theorem processAll_registry (env : Env) : ∀ (batch : List (Handler × Request)) (s : St),
    (∀ p ∈ batch, preservesRegistry p.1) →
    (processAll env batch s).registry = s.registry := by
  intro batch
  induction batch with
  | nil => intro s _; rfl
  | cons hd tl ih =>
    intro s hh
    have h1 := registry_middleware env hd.1 hd.2 s (hh hd (List.mem_cons_self hd tl))
    have h2 := ih ((observability_middleware env hd.1 hd.2 s).2)
      (fun p hp => hh p (List.mem_cons_of_mem hd hp))
    calc (processAll env (hd :: tl) s).registry
        = (processAll env tl ((observability_middleware env hd.1 hd.2 s).2)).registry := rfl
      _ = ((observability_middleware env hd.1 hd.2 s).2).registry := h2
      _ = s.registry := h1

/-- C10: processing any batch of requests through the middleware and the
app's endpoint handlers never changes the Prometheus registry: the
declared `http_requests_total` counter and `http_request_duration_seconds`
histogram are never incremented or observed anywhere in the app, so the
body returned by `GET /metrics` is independent of the requests handled
(the app's own handlers `root` and `get_user` preserve the registry, as
the last two conjuncts state). -/
theorem metrics_body_independent_of_requests (env : Env)
    (batch : List (Handler × Request)) (s : St)
    (hh : ∀ p ∈ batch, preservesRegistry p.1) :
    (processAll env batch s).registry = s.registry ∧
    metrics (processAll env batch s) = metrics s ∧
    preservesRegistry root ∧ (∀ uid : Int, preservesRegistry (get_user uid env)) := by
  have hreg := processAll_registry env batch s hh
  exact ⟨hreg, by simp [metrics, hreg], root_preservesRegistry,
    fun uid => get_user_preservesRegistry uid env⟩

/-- C10 witness: the theorem applied to a two-request batch (the root
endpoint and `GET /users/42`) from the initial state. -/
theorem metrics_body_independent_witness :
    (processAll ⟨fun n => (n : ℚ), fun _ => "w-uuid", fun _ => false⟩
        [(root, ⟨"GET", "/", []⟩),
         (get_user 42 ⟨fun n => (n : ℚ), fun _ => "w-uuid", fun _ => false⟩,
          ⟨"GET", "/users/42", []⟩)]
        ⟨⟨[], [], []⟩, initialRegistry, 0, 0, 0⟩).registry =
      (⟨⟨[], [], []⟩, initialRegistry, 0, 0, 0⟩ : St).registry ∧
    metrics (processAll ⟨fun n => (n : ℚ), fun _ => "w-uuid", fun _ => false⟩
        [(root, ⟨"GET", "/", []⟩),
         (get_user 42 ⟨fun n => (n : ℚ), fun _ => "w-uuid", fun _ => false⟩,
          ⟨"GET", "/users/42", []⟩)]
        ⟨⟨[], [], []⟩, initialRegistry, 0, 0, 0⟩) =
      metrics ⟨⟨[], [], []⟩, initialRegistry, 0, 0, 0⟩ ∧
    preservesRegistry root ∧
    (∀ uid : Int,
      preservesRegistry (get_user uid ⟨fun n => (n : ℚ), fun _ => "w-uuid", fun _ => false⟩)) :=
  metrics_body_independent_of_requests _ _ _ (by
    intro p hp
    simp only [List.mem_cons, List.not_mem_nil, or_false] at hp
    rcases hp with h | h
    · subst h
      exact root_preservesRegistry
    · subst h
      exact get_user_preservesRegistry 42 _)

theorem middleware_ok_run (env : Env) (req : Request) (s0 : St) (handler : Handler)
    (response : HttpResponse) (s2 : St)
    (hNF : ∀ n, env.insertFail n = false)
    (hH : handler req (afterStartLog env req s0) = (.ok response, s2)) :
    (observability_middleware env handler req s0).1 =
      .ok { response with
            headers := setHeader response.headers "X-Trace-ID" (env.uuids s0.uuidIdx) } ∧
    (observability_middleware env handler req s0).2.store.metrics = s2.store.metrics ++
      [requestCountRow (env.clock (s2.timeIdx + 1)) (env.uuids s0.uuidIdx)
         (requestLabels req response.status_code),
       durationMetricRow (env.clock (s2.timeIdx + 2)) (env.uuids s0.uuidIdx)
         (env.clock s2.timeIdx - env.clock s0.timeIdx) (requestLabels req response.status_code)] ∧
    (observability_middleware env handler req s0).2.store.traces = s2.store.traces ++
      [spanRow (env.clock (s2.timeIdx + 3)) (env.uuids s0.uuidIdx) (env.uuids s2.uuidIdx) req
         (env.clock s2.timeIdx - env.clock s0.timeIdx) (requestLabels req response.status_code)] ∧
    (observability_middleware env handler req s0).2.store.logs = s2.store.logs ++
      [completionLogRow (env.clock (s2.timeIdx + 4)) (env.uuids s0.uuidIdx) req
         response.status_code (env.clock s2.timeIdx - env.clock s0.timeIdx)] := by
  have hH' : handler req (pushLog s0.tickU.tickT.tickT
      (startLogRow (env.clock (s0.timeIdx + 1)) (env.uuids s0.uuidIdx) req)) =
      (.ok response, s2) := hH
  simp only [pushLog, St.tickT, St.tickU] at hH'
  refine ⟨?_, ?_, ?_, ?_⟩ <;>
    simp [observability_middleware, successPath, attempt, tryInsertLog, tryInsertMetric,
      tryInsertTrace, pushLog, pushMetric, pushTrace, St.tickT, St.tickU, hNF, hH',
      Nat.add_assoc]

theorem middleware_error_run (env : Env) (req : Request) (s0 : St) (handler : Handler)
    (e : String) (s2 : St)
    (hNF : ∀ n, env.insertFail n = false)
    (hH : handler req (afterStartLog env req s0) = (.error e, s2)) :
    (observability_middleware env handler req s0).1 = .error e ∧
    (observability_middleware env handler req s0).2.store.logs = s2.store.logs ++
      [errorLogRow (env.clock (s2.timeIdx + 1)) (env.uuids s0.uuidIdx) e
         (env.clock s2.timeIdx - env.clock s0.timeIdx)] ∧
    (observability_middleware env handler req s0).2.store.metrics = s2.store.metrics ∧
    (observability_middleware env handler req s0).2.store.traces = s2.store.traces := by
  have hH' : handler req (pushLog s0.tickU.tickT.tickT
      (startLogRow (env.clock (s0.timeIdx + 1)) (env.uuids s0.uuidIdx) req)) =
      (.error e, s2) := hH
  simp only [pushLog, St.tickT, St.tickU] at hH'
  refine ⟨?_, ?_, ?_, ?_⟩ <;>
    simp [observability_middleware, failurePath, tryInsertLog, pushLog,
      St.tickT, St.tickU, hNF, hH', Nat.add_assoc]

theorem afterStartLog_logs (env : Env) (req : Request) (s0 : St) :
    (afterStartLog env req s0).store.logs =
      s0.store.logs ++ [startLogRow (env.clock (s0.timeIdx + 1)) (env.uuids s0.uuidIdx) req] := by
  simp [afterStartLog, pushLog, St.tickT, St.tickU]

/-- Concrete environment for witness runs: the n-th wall-clock reading is
n, every uuid draw is `w-uuid`, no insert fails. -/
def envW : Env := ⟨fun n => (n : ℚ), fun _ => "w-uuid", fun _ => false⟩

/-- The initial process state: empty store, fresh registry, all oracle
indices at zero. -/
def st0 : St := ⟨⟨[], [], []⟩, initialRegistry, 0, 0, 0⟩

/-- The request `GET /` with no inbound headers. -/
def reqRoot : Request := ⟨"GET", "/", []⟩

/-- Concrete environment for the C1 run, drawing a realistic uuid. -/
def envC1 : Env :=
  ⟨fun n => (n : ℚ), fun _ => "11111111-2222-3333-4444-555555555555", fun _ => false⟩

/-- The request `GET /users/42` with no inbound headers (in particular no
`X-Trace-ID` header: the middleware sets that header only on the
*response*, never on the request the handler sees). -/
def reqUsers42 : Request := ⟨"GET", "/users/42", []⟩

/-- C1 (refuting run): serving `GET /users/42`, the middleware draws
exactly one correlation id before the handler runs, and its own four
records carry it — but not every signal record written during the request
does: the `get_user` handler reads the inbound `X-Trace-ID` request
header, which the middleware never set (it only stamps the response), so
the handler's `Fetching user 42` log row is written under the default id
`"unknown"`, a different correlation id than the generated one. -/
theorem handler_log_row_misses_correlation_id :
    (observability_middleware envC1 (get_user 42 envC1) reqUsers42 st0).2.store.logs.map
        (fun r => r.trace_id) =
      ["11111111-2222-3333-4444-555555555555", "unknown",
       "11111111-2222-3333-4444-555555555555"] ∧
    (observability_middleware envC1 (get_user 42 envC1) reqUsers42 st0).2.store.logs.map
        (fun r => r.message) =
      ["Starting request: GET /users/42", "Fetching user 42", "Request completed: 200"] ∧
    (observability_middleware envC1 (get_user 42 envC1) reqUsers42 st0).2.store.metrics.map
        (fun r => r.trace_id) =
      ["11111111-2222-3333-4444-555555555555", "11111111-2222-3333-4444-555555555555"] ∧
    (observability_middleware envC1 (get_user 42 envC1) reqUsers42 st0).2.store.traces.map
        (fun r => r.trace_id) = ["11111111-2222-3333-4444-555555555555"] ∧
    ("unknown" : String) ≠ "11111111-2222-3333-4444-555555555555" := by
  refine ⟨by decide, by decide, by decide, by decide, by decide⟩

/-- Environment whose insert attempt number 1 — the success path's first
metric write, when the handler itself performs no insert — fails; every
other write succeeds. -/
def envF2 : Env := ⟨fun n => (n : ℚ), fun _ => "w-uuid", fun n => n == 1⟩

/-- The response the bare `root` handler produces for `reqRoot`. -/
def rootRespW : HttpResponse :=
  { status_code := 200, headers := [],
    body := .json [("message", .s "Hello, Observability!"), ("trace_id", .s "unknown")] }

/-- C2 counterexample: the source has no error isolation around its
`client.insert` calls, so a single failed Signal Store write changes the
response the client sees: serving `GET /` under `envF2`, the middleware
returns the store error to the framework (a 500 for the client), although
the bare `root` handler — the behaviour without the instrumentation
layer — returns the 200 response. -/
theorem store_write_failure_changes_response :
    (observability_middleware envF2 root reqRoot st0).1 = .error storeWriteError ∧
    (root reqRoot st0).1 = .ok rootRespW ∧
    (.error storeWriteError : Except String HttpResponse) ≠ .ok rootRespW := by
  refine ⟨by decide, by decide, by decide⟩

/-- C2 amended: a failure of a write to the Signal Store Client is *not*
fire-and-forget: when the success path's first store write fails (the
error-log write itself succeeding), the middleware catches the exception
in its generic `except` clause, records it (best effort) as an ERROR log
row, and re-raises it, so the request fails with the store error instead
of returning the handler's response, and no metric or trace record of
that request is written.  Surfacing is limited to that ERROR log row and
the propagated exception — there is no separate process-level error
channel. -/
theorem store_write_failure_propagates (env : Env) (req : Request) (s0 : St)
    (handler : Handler) (response : HttpResponse) (s2 : St)
    (hStart : env.insertFail s0.insIdx = false)
    (hH : handler req (afterStartLog env req s0) = (.ok response, s2))
    (hf1 : env.insertFail s2.insIdx = true)
    (hf2 : env.insertFail (s2.insIdx + 1) = false) :
    (observability_middleware env handler req s0).1 = .error storeWriteError ∧
    (observability_middleware env handler req s0).2.store.metrics = s2.store.metrics ∧
    (observability_middleware env handler req s0).2.store.traces = s2.store.traces ∧
    (observability_middleware env handler req s0).2.store.logs = s2.store.logs ++
      [errorLogRow (env.clock (s2.timeIdx + 3)) (env.uuids s0.uuidIdx) storeWriteError
         (env.clock (s2.timeIdx + 2) - env.clock s0.timeIdx)] := by
  have hH' : handler req (pushLog s0.tickU.tickT.tickT
      (startLogRow (env.clock (s0.timeIdx + 1)) (env.uuids s0.uuidIdx) req)) =
      (.ok response, s2) := hH
  simp only [pushLog, St.tickT, St.tickU] at hH'
  refine ⟨?_, ?_, ?_, ?_⟩ <;>
    simp [observability_middleware, successPath, failurePath, attempt, tryInsertLog,
      tryInsertMetric, pushLog, pushMetric, St.tickT, St.tickU,
      hStart, hH', hf1, hf2, Nat.add_assoc]

/-- C2 amended witness: the amended theorem applied to the `GET /` run
under `envF2`. -/
theorem store_write_failure_propagates_witness :
    (observability_middleware envF2 root reqRoot st0).1 = .error storeWriteError ∧
    (observability_middleware envF2 root reqRoot st0).2.store.metrics =
      (afterStartLog envF2 reqRoot st0).store.metrics ∧
    (observability_middleware envF2 root reqRoot st0).2.store.traces =
      (afterStartLog envF2 reqRoot st0).store.traces ∧
    (observability_middleware envF2 root reqRoot st0).2.store.logs =
      (afterStartLog envF2 reqRoot st0).store.logs ++
      [errorLogRow (envF2.clock ((afterStartLog envF2 reqRoot st0).timeIdx + 3))
         (envF2.uuids st0.uuidIdx) storeWriteError
         (envF2.clock ((afterStartLog envF2 reqRoot st0).timeIdx + 2) -
           envF2.clock st0.timeIdx)] :=
  store_write_failure_propagates envF2 reqRoot st0 root rootRespW
    (afterStartLog envF2 reqRoot st0) (by decide) (by decide) (by decide) (by decide)

/-- C3: when the downstream handler returns a response normally and no
store write fails, the middleware computes `duration = now − start_time`
(clock at success-path entry minus clock at middleware entry) and appends
exactly two metric rows (a request-count row of value 1 named
`http_requests_total` and a duration row carrying `duration`, both tagged
with the method/endpoint/status labels), exactly one trace row that is a
root span (`parent_span_id` empty, `duration_ms = duration * 1000`), and
exactly one INFO completion log row; it attaches the correlation id to
the response headers as `X-Trace-ID` and returns the response otherwise
unchanged (same status code and body). -/
theorem middleware_success_writes_exact_signals (env : Env) (req : Request) (s0 : St)
    (handler : Handler) (response : HttpResponse) (s2 : St)
    (hNF : ∀ n, env.insertFail n = false)
    (hH : handler req (afterStartLog env req s0) = (.ok response, s2)) :
    (observability_middleware env handler req s0).1 =
      .ok { response with
            headers := setHeader response.headers "X-Trace-ID" (env.uuids s0.uuidIdx) } ∧
    (observability_middleware env handler req s0).2.store.metrics = s2.store.metrics ++
      [requestCountRow (env.clock (s2.timeIdx + 1)) (env.uuids s0.uuidIdx)
         (requestLabels req response.status_code),
       durationMetricRow (env.clock (s2.timeIdx + 2)) (env.uuids s0.uuidIdx)
         (env.clock s2.timeIdx - env.clock s0.timeIdx) (requestLabels req response.status_code)] ∧
    (observability_middleware env handler req s0).2.store.traces = s2.store.traces ++
      [spanRow (env.clock (s2.timeIdx + 3)) (env.uuids s0.uuidIdx) (env.uuids s2.uuidIdx) req
         (env.clock s2.timeIdx - env.clock s0.timeIdx) (requestLabels req response.status_code)] ∧
    (observability_middleware env handler req s0).2.store.logs = s2.store.logs ++
      [completionLogRow (env.clock (s2.timeIdx + 4)) (env.uuids s0.uuidIdx) req
         response.status_code (env.clock s2.timeIdx - env.clock s0.timeIdx)] ∧
    (requestCountRow (env.clock (s2.timeIdx + 1)) (env.uuids s0.uuidIdx)
       (requestLabels req response.status_code)).metric_name = "http_requests_total" ∧
    (requestCountRow (env.clock (s2.timeIdx + 1)) (env.uuids s0.uuidIdx)
       (requestLabels req response.status_code)).value = 1 ∧
    (durationMetricRow (env.clock (s2.timeIdx + 2)) (env.uuids s0.uuidIdx)
       (env.clock s2.timeIdx - env.clock s0.timeIdx)
       (requestLabels req response.status_code)).value =
      env.clock s2.timeIdx - env.clock s0.timeIdx ∧
    (spanRow (env.clock (s2.timeIdx + 3)) (env.uuids s0.uuidIdx) (env.uuids s2.uuidIdx) req
       (env.clock s2.timeIdx - env.clock s0.timeIdx)
       (requestLabels req response.status_code)).parent_span_id = "" ∧
    (spanRow (env.clock (s2.timeIdx + 3)) (env.uuids s0.uuidIdx) (env.uuids s2.uuidIdx) req
       (env.clock s2.timeIdx - env.clock s0.timeIdx)
       (requestLabels req response.status_code)).duration_ms =
      (env.clock s2.timeIdx - env.clock s0.timeIdx) * 1000 ∧
    (completionLogRow (env.clock (s2.timeIdx + 4)) (env.uuids s0.uuidIdx) req
       response.status_code (env.clock s2.timeIdx - env.clock s0.timeIdx)).level = "INFO" := by
  obtain ⟨h1, h2, h3, h4⟩ := middleware_ok_run env req s0 handler response s2 hNF hH
  exact ⟨h1, h2, h3, h4, rfl, rfl, rfl, rfl, rfl, rfl⟩

/-- C3 witness: the theorem applied to the `GET /` run under `envW` with
the `root` handler. -/
theorem middleware_success_writes_exact_signals_witness :
    (observability_middleware envW root reqRoot st0).1 =
      .ok { rootRespW with
            headers := setHeader rootRespW.headers "X-Trace-ID" (envW.uuids st0.uuidIdx) } ∧
    (observability_middleware envW root reqRoot st0).2.store.metrics =
      (afterStartLog envW reqRoot st0).store.metrics ++
      [requestCountRow (envW.clock ((afterStartLog envW reqRoot st0).timeIdx + 1))
         (envW.uuids st0.uuidIdx) (requestLabels reqRoot rootRespW.status_code),
       durationMetricRow (envW.clock ((afterStartLog envW reqRoot st0).timeIdx + 2))
         (envW.uuids st0.uuidIdx)
         (envW.clock (afterStartLog envW reqRoot st0).timeIdx - envW.clock st0.timeIdx)
         (requestLabels reqRoot rootRespW.status_code)] ∧
    (observability_middleware envW root reqRoot st0).2.store.traces =
      (afterStartLog envW reqRoot st0).store.traces ++
      [spanRow (envW.clock ((afterStartLog envW reqRoot st0).timeIdx + 3))
         (envW.uuids st0.uuidIdx) (envW.uuids (afterStartLog envW reqRoot st0).uuidIdx) reqRoot
         (envW.clock (afterStartLog envW reqRoot st0).timeIdx - envW.clock st0.timeIdx)
         (requestLabels reqRoot rootRespW.status_code)] ∧
    (observability_middleware envW root reqRoot st0).2.store.logs =
      (afterStartLog envW reqRoot st0).store.logs ++
      [completionLogRow (envW.clock ((afterStartLog envW reqRoot st0).timeIdx + 4))
         (envW.uuids st0.uuidIdx) reqRoot rootRespW.status_code
         (envW.clock (afterStartLog envW reqRoot st0).timeIdx - envW.clock st0.timeIdx)] ∧
    (requestCountRow (envW.clock ((afterStartLog envW reqRoot st0).timeIdx + 1))
       (envW.uuids st0.uuidIdx)
       (requestLabels reqRoot rootRespW.status_code)).metric_name = "http_requests_total" ∧
    (requestCountRow (envW.clock ((afterStartLog envW reqRoot st0).timeIdx + 1))
       (envW.uuids st0.uuidIdx) (requestLabels reqRoot rootRespW.status_code)).value = 1 ∧
    (durationMetricRow (envW.clock ((afterStartLog envW reqRoot st0).timeIdx + 2))
       (envW.uuids st0.uuidIdx)
       (envW.clock (afterStartLog envW reqRoot st0).timeIdx - envW.clock st0.timeIdx)
       (requestLabels reqRoot rootRespW.status_code)).value =
      envW.clock (afterStartLog envW reqRoot st0).timeIdx - envW.clock st0.timeIdx ∧
    (spanRow (envW.clock ((afterStartLog envW reqRoot st0).timeIdx + 3))
       (envW.uuids st0.uuidIdx) (envW.uuids (afterStartLog envW reqRoot st0).uuidIdx) reqRoot
       (envW.clock (afterStartLog envW reqRoot st0).timeIdx - envW.clock st0.timeIdx)
       (requestLabels reqRoot rootRespW.status_code)).parent_span_id = "" ∧
    (spanRow (envW.clock ((afterStartLog envW reqRoot st0).timeIdx + 3))
       (envW.uuids st0.uuidIdx) (envW.uuids (afterStartLog envW reqRoot st0).uuidIdx) reqRoot
       (envW.clock (afterStartLog envW reqRoot st0).timeIdx - envW.clock st0.timeIdx)
       (requestLabels reqRoot rootRespW.status_code)).duration_ms =
      (envW.clock (afterStartLog envW reqRoot st0).timeIdx - envW.clock st0.timeIdx) * 1000 ∧
    (completionLogRow (envW.clock ((afterStartLog envW reqRoot st0).timeIdx + 4))
       (envW.uuids st0.uuidIdx) reqRoot rootRespW.status_code
       (envW.clock (afterStartLog envW reqRoot st0).timeIdx - envW.clock st0.timeIdx)).level =
      "INFO" :=
  middleware_success_writes_exact_signals envW reqRoot st0 root rootRespW
    (afterStartLog envW reqRoot st0) (fun _ => rfl) (by decide)

theorem isPrefixOf_self (l : List Char) : l.isPrefixOf l = true := by
  induction l with
  | nil => rfl
  | cons a t ih => simp [List.isPrefixOf, ih]

theorem listHasSub_self (ys : List Char) : listHasSub ys ys = true := by
  cases ys with
  | nil => rfl
  | cons y t => simp [listHasSub, isPrefixOf_self]

theorem listHasSub_append (xs ys : List Char) : listHasSub (xs ++ ys) ys = true := by
  induction xs with
  | nil => simpa using listHasSub_self ys
  | cons x t ih => simp [listHasSub, ih]

theorem strContains_append (a b : String) : strContains (a ++ b) b = true := by
  unfold strContains
  have h : (a ++ b).toList = a.toList ++ b.toList := by
    simp [String.toList, String.data_append]
  rw [h]
  exact listHasSub_append _ _

/-- A downstream handler that raises the exception `boom` without writing
anything (a stand-in for a failing endpoint). -/
def boomHandler : Handler := fun _ s => (.error "boom", s)

/-- C4 counterexample: on the `GET /` run whose handler raises `boom`,
the middleware writes exactly one ERROR log row with no metric and no
trace row and re-raises — but the ERROR row's *message*
(`Request failed: boom`) does not contain the measured duration (2 in
this run): the duration is only carried in the `extra_fields` payload,
so the claim that the message contains the duration is false. -/
theorem error_log_message_lacks_duration :
    (observability_middleware envW boomHandler reqRoot st0).2.store.logs.map
        (fun r => (r.level, r.message, r.extra_fields)) =
      [("INFO", "Starting request: GET /",
        [("method", JVal.s "GET"), ("path", JVal.s "/")]),
       ("ERROR", "Request failed: boom",
        [("error", JVal.s "boom"), ("duration", JVal.n 2)])] ∧
    strContains "Request failed: boom" (toString (2 : ℚ)) = false ∧
    (observability_middleware envW boomHandler reqRoot st0).2.store.metrics = [] ∧
    (observability_middleware envW boomHandler reqRoot st0).2.store.traces = [] ∧
    (observability_middleware envW boomHandler reqRoot st0).1 = .error "boom" := by
  obtain ⟨h1, h2, h3, h4⟩ := middleware_error_run envW reqRoot st0 boomHandler "boom"
    (afterStartLog envW reqRoot st0) (fun _ => rfl) rfl
  refine ⟨?_, by decide, ?_, ?_, h1⟩
  · rw [h2, afterStartLog_logs]
    simp [startLogRow, errorLogRow, reqRoot, envW, st0, afterStartLog, pushLog,
      St.tickT, St.tickU]
  · rw [h3]
    simp [afterStartLog, pushLog, St.tickT, St.tickU, st0]
  · rw [h4]
    simp [afterStartLog, pushLog, St.tickT, St.tickU, st0]

/-- C4 amended: when the downstream handler raises and no store write
fails, the middleware writes exactly one ERROR-level log row whose
message contains the failure description and whose `extra_fields`
payload — not the message — carries the measured duration (≥ 0 for a
monotone clock); it writes no metric and no trace row for that request
and re-raises the failure unchanged. -/
theorem middleware_failure_error_log_only (env : Env) (req : Request) (s0 : St)
    (handler : Handler) (e : String) (s2 : St)
    (hNF : ∀ n, env.insertFail n = false)
    (hH : handler req (afterStartLog env req s0) = (.error e, s2))
    (hMono : ∀ i j : Nat, i ≤ j → env.clock i ≤ env.clock j)
    (hIdx : s0.timeIdx ≤ s2.timeIdx) :
    (observability_middleware env handler req s0).1 = .error e ∧
    (observability_middleware env handler req s0).2.store.logs = s2.store.logs ++
      [errorLogRow (env.clock (s2.timeIdx + 1)) (env.uuids s0.uuidIdx) e
         (env.clock s2.timeIdx - env.clock s0.timeIdx)] ∧
    (observability_middleware env handler req s0).2.store.metrics = s2.store.metrics ∧
    (observability_middleware env handler req s0).2.store.traces = s2.store.traces ∧
    (errorLogRow (env.clock (s2.timeIdx + 1)) (env.uuids s0.uuidIdx) e
       (env.clock s2.timeIdx - env.clock s0.timeIdx)).level = "ERROR" ∧
    (errorLogRow (env.clock (s2.timeIdx + 1)) (env.uuids s0.uuidIdx) e
       (env.clock s2.timeIdx - env.clock s0.timeIdx)).message = "Request failed: " ++ e ∧
    strContains (errorLogRow (env.clock (s2.timeIdx + 1)) (env.uuids s0.uuidIdx) e
       (env.clock s2.timeIdx - env.clock s0.timeIdx)).message e = true ∧
    (errorLogRow (env.clock (s2.timeIdx + 1)) (env.uuids s0.uuidIdx) e
       (env.clock s2.timeIdx - env.clock s0.timeIdx)).extra_fields =
      [("error", .s e), ("duration", .n (env.clock s2.timeIdx - env.clock s0.timeIdx))] ∧
    0 ≤ env.clock s2.timeIdx - env.clock s0.timeIdx := by
  obtain ⟨h1, h2, h3, h4⟩ := middleware_error_run env req s0 handler e s2 hNF hH
  refine ⟨h1, h2, h3, h4, rfl, rfl, ?_, rfl, ?_⟩
  · exact strContains_append "Request failed: " e
  · have h := hMono s0.timeIdx s2.timeIdx hIdx
    linarith

/-- C4 amended witness: the amended theorem applied to the `GET /` run
under `envW` with the raising handler. -/
theorem middleware_failure_error_log_only_witness :
    (observability_middleware envW boomHandler reqRoot st0).1 = .error "boom" ∧
    (observability_middleware envW boomHandler reqRoot st0).2.store.logs =
      (afterStartLog envW reqRoot st0).store.logs ++
      [errorLogRow (envW.clock ((afterStartLog envW reqRoot st0).timeIdx + 1))
         (envW.uuids st0.uuidIdx) "boom"
         (envW.clock (afterStartLog envW reqRoot st0).timeIdx - envW.clock st0.timeIdx)] ∧
    (observability_middleware envW boomHandler reqRoot st0).2.store.metrics =
      (afterStartLog envW reqRoot st0).store.metrics ∧
    (observability_middleware envW boomHandler reqRoot st0).2.store.traces =
      (afterStartLog envW reqRoot st0).store.traces ∧
    (errorLogRow (envW.clock ((afterStartLog envW reqRoot st0).timeIdx + 1))
       (envW.uuids st0.uuidIdx) "boom"
       (envW.clock (afterStartLog envW reqRoot st0).timeIdx -
         envW.clock st0.timeIdx)).level = "ERROR" ∧
    (errorLogRow (envW.clock ((afterStartLog envW reqRoot st0).timeIdx + 1))
       (envW.uuids st0.uuidIdx) "boom"
       (envW.clock (afterStartLog envW reqRoot st0).timeIdx -
         envW.clock st0.timeIdx)).message = "Request failed: " ++ "boom" ∧
    strContains (errorLogRow (envW.clock ((afterStartLog envW reqRoot st0).timeIdx + 1))
       (envW.uuids st0.uuidIdx) "boom"
       (envW.clock (afterStartLog envW reqRoot st0).timeIdx -
         envW.clock st0.timeIdx)).message "boom" = true ∧
    (errorLogRow (envW.clock ((afterStartLog envW reqRoot st0).timeIdx + 1))
       (envW.uuids st0.uuidIdx) "boom"
       (envW.clock (afterStartLog envW reqRoot st0).timeIdx -
         envW.clock st0.timeIdx)).extra_fields =
      [("error", .s "boom"),
       ("duration", .n (envW.clock (afterStartLog envW reqRoot st0).timeIdx -
         envW.clock st0.timeIdx))] ∧
    0 ≤ envW.clock (afterStartLog envW reqRoot st0).timeIdx - envW.clock st0.timeIdx :=
  middleware_failure_error_log_only envW reqRoot st0 boomHandler "boom"
    (afterStartLog envW reqRoot st0) (fun _ => rfl) (by decide)
    (fun i j h => by simp only [envW]; exact_mod_cast h) (by decide)

/-- C8: for every request (whose own handler only appends log rows, as
all the app's handlers do, and under a monotone wall clock with no store
write failing), the start log row is written strictly before the
completion/error log row of that request: the final log table is the
prior logs, then the start row, then the handler's rows, then — last —
the completion (INFO) or error (ERROR) row, and the start row's timestamp
is at most the completion/error row's timestamp. -/
theorem start_log_precedes_completion_log (env : Env) (req : Request) (s0 : St)
    (handler : Handler) (r : Except String HttpResponse) (s2 : St) (ex : List LogRow)
    (hNF : ∀ n, env.insertFail n = false)
    (hH : handler req (afterStartLog env req s0) = (r, s2))
    (hAp : s2.store.logs = (afterStartLog env req s0).store.logs ++ ex)
    (hMono : ∀ i j : Nat, i ≤ j → env.clock i ≤ env.clock j)
    (hIdx : s0.timeIdx ≤ s2.timeIdx) :
    ∃ mid last,
      (observability_middleware env handler req s0).2.store.logs =
        s0.store.logs ++
          startLogRow (env.clock (s0.timeIdx + 1)) (env.uuids s0.uuidIdx) req ::
            (mid ++ [last]) ∧
      (startLogRow (env.clock (s0.timeIdx + 1)) (env.uuids s0.uuidIdx) req).timestamp ≤
        last.timestamp ∧
      (last.level = "INFO" ∨ last.level = "ERROR") := by
  cases r with
  | ok response =>
    obtain ⟨h1, h2, h3, h4⟩ := middleware_ok_run env req s0 handler response s2 hNF hH
    refine ⟨ex, completionLogRow (env.clock (s2.timeIdx + 4)) (env.uuids s0.uuidIdx) req
      response.status_code (env.clock s2.timeIdx - env.clock s0.timeIdx), ?_, ?_, Or.inl rfl⟩
    · rw [h4, hAp, afterStartLog_logs]
      simp
    · show env.clock (s0.timeIdx + 1) ≤ env.clock (s2.timeIdx + 4)
      exact hMono _ _ (by omega)
  | error e =>
    obtain ⟨h1, h2, h3, h4⟩ := middleware_error_run env req s0 handler e s2 hNF hH
    refine ⟨ex, errorLogRow (env.clock (s2.timeIdx + 1)) (env.uuids s0.uuidIdx) e
      (env.clock s2.timeIdx - env.clock s0.timeIdx), ?_, ?_, Or.inr rfl⟩
    · rw [h2, hAp, afterStartLog_logs]
      simp
    · show env.clock (s0.timeIdx + 1) ≤ env.clock (s2.timeIdx + 1)
      exact hMono _ _ (by omega)

/-- C8 witness: the theorem applied to the `GET /` run under `envW` with
the `root` handler (which appends no log row of its own). -/
theorem start_log_precedes_completion_log_witness :
    ∃ mid last,
      (observability_middleware envW root reqRoot st0).2.store.logs =
        st0.store.logs ++
          startLogRow (envW.clock (st0.timeIdx + 1)) (envW.uuids st0.uuidIdx) reqRoot ::
            (mid ++ [last]) ∧
      (startLogRow (envW.clock (st0.timeIdx + 1)) (envW.uuids st0.uuidIdx)
        reqRoot).timestamp ≤ last.timestamp ∧
      (last.level = "INFO" ∨ last.level = "ERROR") :=
  start_log_precedes_completion_log envW reqRoot st0 root (.ok rootRespW)
    (afterStartLog envW reqRoot st0) [] (fun _ => rfl) (by decide) (by simp)
    (fun i j h => by simp only [envW]; exact_mod_cast h) (by decide)
